import Mathlib

/-!
Shallow embedding of `src/ImguiExample/blender_imgui.py`, the ImGui/Blender
binding layer: the draw translator (`BlenderImguiRenderer.render`), the overlay
registry (`GlobalImgui`), and the input translator
(`ImguiBasedOperator.modal_imgui`).

Python floats are modelled as rationals (ℚ); Python `int(...)` truncation
toward zero is `pyInt`.  Host GPU state mutation is modelled as a trace of
`GPUCall`s applied to an explicit `GPUState`.
-/

namespace BlenderImgui

/-- Python `int(q)`: truncation toward zero.  For `q = num/den` in lowest terms
with `den > 0`, `Int.div num den` is exactly T-division. -/
def pyInt (q : ℚ) : Int := Int.tdiv q.num (q.den : Int)

/-- A clip rectangle `(x0, y0, x1, y1)` as stored in an ImGui draw command
(screen space, top-left origin). -/
structure ClipRect where
  x0 : ℚ
  y0 : ℚ
  x1 : ℚ
  y1 : ℚ
deriving DecidableEq

/-- One ImGui draw command: an element count, a texture handle and a clip
rectangle (`command.elem_count`, `command.texture_id`, `command.clip_rect`). -/
structure DrawCmd where
  elem_count : Nat
  texture_id : Nat
  clip_rect : ClipRect
deriving DecidableEq

/-- One vertex of an ImGui vertex buffer: 2 floats of position, 2 floats of
UV, 4 bytes of packed color (the layout `vtx_buffer_shaped` exposes). -/
structure Vtx where
  px : ℚ
  py : ℚ
  u : ℚ
  v : ℚ
  r : Nat
  g : Nat
  b : Nat
  a : Nat
deriving DecidableEq

/-- An ImGui command list: vertex buffer, index buffer, ordered commands. -/
structure CmdList where
  vtx_buffer : List Vtx
  idx_buffer : List Nat
  commands : List DrawCmd
deriving DecidableEq

/-- Per-frame ImGui draw data: an ordered sequence of command lists. -/
structure DrawData where
  commands_lists : List CmdList
deriving DecidableEq

/-- The fields of `imgui.get_io()` that `render` reads. -/
structure IOState where
  display_size : ℚ × ℚ
  display_fb_scale : ℚ × ℚ
deriving DecidableEq

/-- Arguments of one `batch_for_shader(...)` + `batch.draw(shader)` pair:
the attribute arrays handed to the host and the index slice drawn. -/
structure DrawArgs where
  position : List (ℚ × ℚ)
  uv : List (ℚ × ℚ)
  color : List (ℚ × ℚ × ℚ × ℚ)
  indices : List Nat
deriving DecidableEq

/-- One host GPU call issued by `render`, in program order. -/
inductive GPUCall where
  | blendSet (mode : String)
  | faceCullingSet (mode : String)
  | scissorTestSet (enabled : Bool)
  | viewportSet (x y w h : Int)
  | shaderBind
  | uniformProjMtx (m : List ℚ)
  | uniformTextureInt (i : Int)
  | uniformSampler (tex : Nat)
  | scissorSet (x y w h : Int)
  | batchDraw (args : DrawArgs)
deriving DecidableEq

/-- `vtx_buffer_shaped[:, :2]`: the position columns of the whole buffer. -/
def verticesOf (buf : List Vtx) : List (ℚ × ℚ) :=
  buf.map fun v => (v.px, v.py)

/-- `vtx_buffer_shaped[:, 2:4]`: the UV columns of the whole buffer. -/
def uvsOf (buf : List Vtx) : List (ℚ × ℚ) :=
  buf.map fun v => (v.u, v.v)

/-- the color bytes of the whole buffer, `astype('f') / 255.0`. -/
def colorsOf (buf : List Vtx) : List (ℚ × ℚ × ℚ × ℚ) :=
  buf.map fun v => ((v.r : ℚ) / 255, (v.g : ℚ) / 255, (v.b : ℚ) / 255, (v.a : ℚ) / 255)

/-- `draw_data.scale_clip_rects(*io.display_fb_scale)`: multiply every clip
rectangle coordinate by the per-axis scale factor. -/
def scaleClipRects (sx sy : ℚ) (dd : DrawData) : DrawData :=
  { commands_lists := dd.commands_lists.map fun cl =>
      { cl with commands := cl.commands.map fun c =>
          { c with clip_rect :=
              ⟨c.clip_rect.x0 * sx, c.clip_rect.y0 * sy,
               c.clip_rect.x1 * sx, c.clip_rect.y1 * sy⟩ } } }

/-- The orthographic projection matrix literal of `render`. -/
def orthoProjection (dw dh : ℚ) : List ℚ :=
  [2 / dw, 0, 0, 0,
   0, 2 / (-dh), 0, 0,
   0, 0, -1, 0,
   -1, 1, 0, 1]

/-- The inner loop of `render`: for each command, set the scissor rectangle
from the command's clip rect `(x, y, z, w)` via
`scissor_set(int(x), int(fb_height - w), int(z - x), int(w - y))`,
bind the command's texture, and draw the index slice
`idx_buffer_np[idx_buffer_offset : idx_buffer_offset + elem_count]`
with the whole vertex buffer as attribute arrays. -/
def renderCmds (fbHeight : Int) (vtx : List Vtx) (idx : List Nat) :
    List DrawCmd → Nat → List GPUCall
  | [], _ => []
  | c :: rest, off =>
      GPUCall.scissorSet (pyInt c.clip_rect.x0) (pyInt ((fbHeight : ℚ) - c.clip_rect.y1))
          (pyInt (c.clip_rect.x1 - c.clip_rect.x0)) (pyInt (c.clip_rect.y1 - c.clip_rect.y0)) ::
      GPUCall.uniformSampler c.texture_id ::
      GPUCall.batchDraw ⟨verticesOf vtx, uvsOf vtx, colorsOf vtx,
          (idx.drop off).take c.elem_count⟩ ::
      renderCmds fbHeight vtx idx rest (off + c.elem_count)

/-- The outer loop of `render` over `draw_data.commands_lists`. -/
def renderLists (fbHeight : Int) : List CmdList → List GPUCall
  | [] => []
  | cl :: rest =>
      renderCmds fbHeight cl.vtx_buffer cl.idx_buffer cl.commands 0 ++
      renderLists fbHeight rest

/-- Host GPU state touched by `render` (via `gpu.state`). -/
structure GPUState where
  blend : String
  face_culling : String
  scissor_test : Bool
  scissor : Int × Int × Int × Int
  viewport : Int × Int × Int × Int
deriving DecidableEq

/-- `BlenderImguiRenderer.render(draw_data)`: the trace of host GPU calls, in
program order.  `g` is the host state at entry (read by
`gpu.state.blend_get()` for the final restore). -/
def render (io : IOState) (dd : DrawData) (g : GPUState) : List GPUCall :=
  let dw := io.display_size.1
  let dh := io.display_size.2
  let fb_width := pyInt (dw * io.display_fb_scale.1)
  let fb_height := pyInt (dh * io.display_fb_scale.2)
  if fb_width = 0 ∨ fb_height = 0 then []
  else
    let dd2 := scaleClipRects io.display_fb_scale.1 io.display_fb_scale.2 dd
    GPUCall.blendSet "ALPHA" ::
    GPUCall.faceCullingSet "NONE" ::
    GPUCall.scissorTestSet true ::
    GPUCall.viewportSet 0 0 fb_width fb_height ::
    GPUCall.shaderBind ::
    GPUCall.uniformProjMtx (orthoProjection dw dh) ::
    GPUCall.uniformTextureInt 0 ::
    (renderLists fb_height dd2.commands_lists ++
     [GPUCall.blendSet g.blend, GPUCall.scissorTestSet false])

/-- Effect of one GPU call on the host state. -/
def applyCall (s : GPUState) : GPUCall → GPUState
  | .blendSet m => { s with blend := m }
  | .faceCullingSet m => { s with face_culling := m }
  | .scissorTestSet b => { s with scissor_test := b }
  | .viewportSet x y w h => { s with viewport := (x, y, w, h) }
  | .scissorSet x y w h => { s with scissor := (x, y, w, h) }
  | _ => s

/-- Host GPU state after `render` returns. -/
def renderFinal (io : IOState) (dd : DrawData) (g : GPUState) : GPUState :=
  (render io dd g).foldl applyCall g

/-- The scissor rectangles set by a trace, in order. -/
def scissorCallsOf : List GPUCall → List (Int × Int × Int × Int)
  | [] => []
  | .scissorSet x y w h :: r => (x, y, w, h) :: scissorCallsOf r
  | _ :: r => scissorCallsOf r

/-- The draw calls issued by a trace, in order. -/
def drawCallsOf : List GPUCall → List DrawArgs
  | [] => []
  | .batchDraw a :: r => a :: drawCallsOf r
  | _ :: r => drawCallsOf r

/-- Following the spec's words (not the source): the clip rectangle
intersected with the framebuffer `[0, fbW] × [0, fbH]`, then converted to
bottom-left-origin pixel coordinates via `scissorY = fbHeight - clipRect.y1`. -/
def specScissorRect (fbW fbH : Int) (rect : ClipRect) : Int × Int × Int × Int :=
  let x0 := max rect.x0 0
  let y0 := max rect.y0 0
  let x1 := min rect.x1 (fbW : ℚ)
  let y1 := min rect.y1 (fbH : ℚ)
  (pyInt x0, pyInt ((fbH : ℚ) - y1), pyInt (x1 - x0), pyInt (y1 - y0))

/-- The scissor rectangle exactly as the source computes it from a (scaled)
clip rectangle `(x, y, z, w)`:
`scissor_set(int(x), int(fb_height - w), int(z - x), int(w - y))` —
no intersection with the framebuffer is performed. -/
def srcScissorRect (fbH : Int) (r : ClipRect) : Int × Int × Int × Int :=
  (pyInt r.x0, pyInt ((fbH : ℚ) - r.y1), pyInt (r.x1 - r.x0), pyInt (r.y1 - r.y0))

/-- The GPU calls emitted by the per-command loop of `render` (they touch no
host state except the scissor rectangle). -/
def isLoopCall : GPUCall → Prop
  | .scissorSet _ _ _ _ => True
  | .uniformSampler _ => True
  | .batchDraw _ => True
  | _ => False

/-!
## Overlay registry (`GlobalImgui`)

Callbacks and Blender space types are opaque values, modelled as `Nat`.
Python attributes that `__init__` does not create (`draw_handlers`,
`callbacks`, `next_callback_id` are only created by `init_imgui`) are
modelled as `Option`s, `none` meaning the attribute does not exist (reading
it raises `AttributeError`).  Python dicts are insertion-ordered association
lists.  `host_hooks` records the space types that currently have a live host
draw-hook subscription (`SpaceType.draw_handler_add` / `draw_handler_remove`).
-/

/-- The state of the `GlobalImgui` singleton together with the host's live
draw-hook subscriptions. -/
structure RegWorld where
  imgui_ctx : Bool
  draw_handlers : Option (List Nat)
  callbacks : Option (List (Nat × Nat × Nat))
  next_callback_id : Option Nat
  host_hooks : List Nat
deriving DecidableEq

/-- `GlobalImgui.__init__`: only `imgui_ctx = None` is assigned. -/
def initState : RegWorld :=
  ⟨false, none, none, none, []⟩

/-- `GlobalImgui.init_imgui`: create the context and reset the registry
attributes (`draw_handlers = {}`, `callbacks = {}`, `next_callback_id = 0`). -/
def init_imgui (s : RegWorld) : RegWorld :=
  { s with imgui_ctx := true, draw_handlers := some [], callbacks := some [],
           next_callback_id := some 0 }

/-- `GlobalImgui.shutdown_imgui`: remove the host draw hook of every entry of
`self.draw_handlers`, destroy the context.  Note: `self.draw_handlers`,
`self.callbacks` and `self.next_callback_id` are left untouched. -/
def shutdown_imgui (s : RegWorld) : RegWorld :=
  { s with host_hooks := s.host_hooks.filter (fun t => t ∉ s.draw_handlers.getD []),
           imgui_ctx := false }

/-- Python dict assignment `m[k] = v` on an insertion-ordered dict: overwrite
in place if the key exists, else append. -/
def dictSet (m : List (Nat × Nat × Nat)) (k : Nat) (v : Nat × Nat) :
    List (Nat × Nat × Nat) :=
  if m.any (fun e => e.1 = k) then
    m.map (fun e => if e.1 = k then (k, v) else e)
  else m ++ [(k, v)]

/-- `GlobalImgui.handler_add(callback, SpaceType)`: lazily initialize the
context, lazily install a host draw hook for a previously-unseen space type,
assign the next handle and store the registration.  Returns the new state and
the handle. -/
def handler_add (s : RegWorld) (cb sp : Nat) : RegWorld × Nat :=
  let s1 := if s.imgui_ctx then s else init_imgui s
  let s2 := if sp ∈ s1.draw_handlers.getD [] then s1
            else { s1 with draw_handlers := some (s1.draw_handlers.getD [] ++ [sp]),
                           host_hooks := s1.host_hooks ++ [sp] }
  let h := s2.next_callback_id.getD 0
  ({ s2 with next_callback_id := some (h + 1),
             callbacks := some (dictSet (s2.callbacks.getD []) h (cb, sp)) }, h)

/-- `GlobalImgui.handler_remove(handle)`.  Result `none` models the
`AttributeError` raised by `handle not in self.callbacks` when the
`callbacks` attribute was never created; `some (s, true)` is the logged
"invalid imgui callback handle" no-op; `some (s, false)` is a successful
removal (with teardown when the callback map becomes empty). -/
def handler_remove (s : RegWorld) (h : Nat) : Option (RegWorld × Bool) :=
  match s.callbacks with
  | none => none
  | some cbs =>
    if cbs.any (fun e => e.1 = h) then
      let cbs' := cbs.filter (fun e => e.1 ≠ h)
      let s1 := { s with callbacks := some cbs' }
      if cbs' = [] then some (shutdown_imgui s1, false) else some (s1, false)
    else some (s, true)

/-- The callback invocations performed by `GlobalImgui.draw(CurrentSpaceType)`:
every registered `(cb, SpaceType)` with `SpaceType == CurrentSpaceType`, in
insertion order of the callback dict, each called with `bpy.context`. -/
def drawInvocations (s : RegWorld) (curSpace ctx : Nat) : List (Nat × Nat) :=
  (s.callbacks.getD []).filterMap
    (fun e => if e.2.2 = curSpace then some (e.2.1, ctx) else none)

/-- One call of the registry's public API. -/
inductive RegOp where
  | add (cb sp : Nat)
  | remove (h : Nat)
deriving DecidableEq

/-- Whether a `RegOp` is a registration. -/
def RegOp.isAdd : RegOp → Bool
  | .add _ _ => true
  | .remove _ => false

/-- Execute one API call; a raised `AttributeError` leaves the state
unchanged (no mutation precedes the failing read in `handler_remove`). -/
def runOp (s : RegWorld) : RegOp → RegWorld × Option Nat
  | .add cb sp => let r := handler_add s cb sp; (r.1, some r.2)
  | .remove h =>
    match handler_remove s h with
    | none => (s, none)
    | some r => (r.1, none)

/-- Execute a sequence of API calls, collecting the handles returned by the
registrations. -/
def runTrace (s : RegWorld) : List RegOp → RegWorld × List Nat
  | [] => (s, [])
  | op :: rest =>
    let r := runOp s op
    let t := runTrace r.1 rest
    (t.1, r.2.toList ++ t.2)

/-- The state after a sequence of API calls. -/
def runOps (s : RegWorld) (ops : List RegOp) : RegWorld :=
  (runTrace s ops).1

/-- Invariant of every reachable registry state: the context exists iff the
callback map is non-empty; every stored handle is below the counter; while the
context exists the host's installed draw hooks are exactly the draw-handler
map's keys, and after teardown none remain. -/
def StateInv (s : RegWorld) : Prop :=
  (s.imgui_ctx = true ↔ s.callbacks.getD [] ≠ []) ∧
  (∀ e ∈ s.callbacks.getD [], e.1 < s.next_callback_id.getD 0) ∧
  (s.imgui_ctx = true → s.host_hooks = s.draw_handlers.getD []) ∧
  (s.imgui_ctx = false → s.host_hooks = [])

/-!
## Input translator (`ImguiBasedOperator.modal_imgui`)

Blender event types and values are the source's string literals.  The imgui
`KEY_*` constants are opaque distinct small integers (their concrete values
are irrelevant; the modifier slots `128 + 1 .. 128 + 7` are explicit in the
source).  `io.keys_down` and `io.mouse_down` are modelled as total boolean
maps.  `event.unicode` is `none` for an empty string, `some c` for a
one-character string of codepoint `c`.
-/

/-- The fields of `imgui.get_io()` that `modal_imgui` touches. -/
structure ImguiIO where
  mouse_pos : Int × Int
  mouse_down : Nat → Bool
  mouse_wheel : Int
  keys_down : Nat → Bool
  key_ctrl : Bool
  key_alt : Bool
  key_shift : Bool
  key_super : Bool
  input_chars : List Nat

/-- A Blender modal event as consumed by `modal_imgui`. -/
structure BEvent where
  type : String
  value : String
  mouse_region_x : Int
  mouse_region_y : Int
  unicode : Option Nat

/-- Point update of a boolean map. -/
def updFn (f : Nat → Bool) (k : Nat) (v : Bool) : Nat → Bool :=
  fun k' => if k' = k then v else f k'

/-- `ImguiBasedOperator.key_map`: Blender event type → imgui key slot.  The
imgui `KEY_*` constants are opaque; the modifier entries `128 + n` are the
source's literals. -/
def key_map : List (String × Nat) :=
  [("TAB", 0), ("LEFT_ARROW", 1), ("RIGHT_ARROW", 2), ("UP_ARROW", 3),
   ("DOWN_ARROW", 4), ("HOME", 5), ("END", 6), ("INSERT", 7), ("DEL", 8),
   ("BACK_SPACE", 9), ("RET", 10), ("ESC", 11), ("PAGE_UP", 12),
   ("PAGE_DOWN", 13), ("A", 14), ("C", 15), ("V", 16), ("X", 17), ("Y", 18),
   ("Z", 19),
   ("LEFT_CTRL", 128 + 1), ("RIGHT_CTRL", 128 + 2),
   ("LEFT_ALT", 128 + 3), ("RIGHT_ALT", 128 + 4),
   ("LEFT_SHIFT", 128 + 5), ("RIGHT_SHIFT", 128 + 6),
   ("OSKEY", 128 + 7)]

/-- `event.type in key_map` / `key_map[event.type]`. -/
def lookupKey (t : String) : Option Nat :=
  (key_map.find? (fun e => e.1 = t)).map (fun e => e.2)

/-- `ImguiBasedOperator.modal_imgui(context, event)`, with
`region_height = context.region.height`. -/
def modal_imgui (region_height : Int) (io : ImguiIO) (ev : BEvent) : ImguiIO :=
  let io1 := { io with
    mouse_pos := (ev.mouse_region_x, region_height - 1 - ev.mouse_region_y) }
  let io2 :=
    if ev.type = "LEFTMOUSE" then
      { io1 with mouse_down := updFn io1.mouse_down 0 (ev.value = "PRESS") }
    else if ev.type = "RIGHTMOUSE" then
      { io1 with mouse_down := updFn io1.mouse_down 1 (ev.value = "PRESS") }
    else if ev.type = "MIDDLEMOUSE" then
      { io1 with mouse_down := updFn io1.mouse_down 2 (ev.value = "PRESS") }
    else if ev.type = "WHEELUPMOUSE" then
      { io1 with mouse_wheel := -1 }
    else if ev.type = "WHEELUPDOWN" then
      { io1 with mouse_wheel := 1 }
    else io1
  let io3 :=
    match lookupKey ev.type with
    | some k =>
      if ev.value = "PRESS" then { io2 with keys_down := updFn io2.keys_down k true }
      else if ev.value = "RELEASE" then { io2 with keys_down := updFn io2.keys_down k false }
      else io2
    | none => io2
  let io4 := { io3 with
    key_ctrl := io3.keys_down (128 + 1) || io3.keys_down (128 + 2),
    key_alt := io3.keys_down (128 + 3) || io3.keys_down (128 + 4),
    key_shift := io3.keys_down (128 + 5) || io3.keys_down (128 + 6),
    key_super := io3.keys_down (128 + 7) }
  match ev.unicode with
  | some c => if 0 < c ∧ c < 0x10000 then
      { io4 with input_chars := io4.input_chars ++ [c] }
    else io4
  | none => io4

/-!
## Lemmas about `pyInt` and the render trace
-/

theorem pyInt_intCast (n : ℤ) : pyInt ((n : ℤ) : ℚ) = n := by
  simp [pyInt, Rat.num_intCast, Rat.den_intCast, Int.tdiv_one]

theorem scissorCallsOf_append (a b : List GPUCall) :
    scissorCallsOf (a ++ b) = scissorCallsOf a ++ scissorCallsOf b := by
  induction a with
  | nil => rfl
  | cons c r ih => cases c <;> simp [scissorCallsOf, ih]

theorem drawCallsOf_append (a b : List GPUCall) :
    drawCallsOf (a ++ b) = drawCallsOf a ++ drawCallsOf b := by
  induction a with
  | nil => rfl
  | cons c r ih => cases c <;> simp [drawCallsOf, ih]

theorem scissorCallsOf_renderCmds (fbH : Int) (vtx : List Vtx) (idx : List Nat)
    (cmds : List DrawCmd) : ∀ off : Nat,
    scissorCallsOf (renderCmds fbH vtx idx cmds off) =
      cmds.map (fun c => srcScissorRect fbH c.clip_rect) := by
  induction cmds with
  | nil => intro off; rfl
  | cons c rest ih => intro off; simp [renderCmds, scissorCallsOf, srcScissorRect, ih]

theorem scissorCallsOf_renderLists (fbH : Int) (cls : List CmdList) :
    scissorCallsOf (renderLists fbH cls) =
      cls.flatMap (fun cl => cl.commands.map (fun c => srcScissorRect fbH c.clip_rect)) := by
  induction cls with
  | nil => rfl
  | cons cl rest ih =>
    simp [renderLists, scissorCallsOf_append, scissorCallsOf_renderCmds, ih]

theorem drawCallsOf_renderCmds (fbH : Int) (vtx : List Vtx) (idx : List Nat)
    (cmds : List DrawCmd) : ∀ off : Nat,
    drawCallsOf (renderCmds fbH vtx idx cmds off) =
      (List.range cmds.length).map (fun k =>
        ⟨verticesOf vtx, uvsOf vtx, colorsOf vtx,
         (idx.drop (off + ((cmds.map DrawCmd.elem_count).take k).sum)).take
           ((cmds.map DrawCmd.elem_count).getD k 0)⟩) := by
  induction cmds with
  | nil => intro off; rfl
  | cons c rest ih =>
    intro off
    simp only [renderCmds, drawCallsOf, ih (off + c.elem_count), List.length_cons,
      List.range_succ_eq_map, List.map_cons, List.map_map]
    refine congrArg₂ List.cons ?_ ?_
    · simp
    · refine List.map_congr_left (fun k _ => ?_)
      simp [List.take_succ_cons, Nat.add_assoc]

theorem drawCallsOf_renderLists (fbH : Int) (cls : List CmdList) :
    drawCallsOf (renderLists fbH cls) =
      cls.flatMap (fun cl =>
        (List.range cl.commands.length).map (fun k =>
          ⟨verticesOf cl.vtx_buffer, uvsOf cl.vtx_buffer, colorsOf cl.vtx_buffer,
           (cl.idx_buffer.drop
              (((cl.commands.map DrawCmd.elem_count).take k).sum)).take
             ((cl.commands.map DrawCmd.elem_count).getD k 0)⟩)) := by
  induction cls with
  | nil => rfl
  | cons cl rest ih =>
    simp [renderLists, drawCallsOf_append, drawCallsOf_renderCmds, ih]

theorem scissorCallsOf_render (io : IOState) (dd : DrawData) (g : GPUState)
    (hW : pyInt (io.display_size.1 * io.display_fb_scale.1) ≠ 0)
    (hH : pyInt (io.display_size.2 * io.display_fb_scale.2) ≠ 0) :
    scissorCallsOf (render io dd g) =
      (scaleClipRects io.display_fb_scale.1 io.display_fb_scale.2 dd).commands_lists.flatMap
        (fun cl => cl.commands.map (fun c =>
          srcScissorRect (pyInt (io.display_size.2 * io.display_fb_scale.2)) c.clip_rect)) := by
  simp only [render]
  rw [if_neg (not_or.mpr ⟨hW, hH⟩)]
  simp [scissorCallsOf, scissorCallsOf_append, scissorCallsOf_renderLists]

theorem drawCallsOf_render (io : IOState) (dd : DrawData) (g : GPUState)
    (hW : pyInt (io.display_size.1 * io.display_fb_scale.1) ≠ 0)
    (hH : pyInt (io.display_size.2 * io.display_fb_scale.2) ≠ 0) :
    drawCallsOf (render io dd g) =
      dd.commands_lists.flatMap (fun cl =>
        (List.range cl.commands.length).map (fun k =>
          ⟨verticesOf cl.vtx_buffer, uvsOf cl.vtx_buffer, colorsOf cl.vtx_buffer,
           (cl.idx_buffer.drop
              (((cl.commands.map DrawCmd.elem_count).take k).sum)).take
             ((cl.commands.map DrawCmd.elem_count).getD k 0)⟩)) := by
  simp only [render]
  rw [if_neg (not_or.mpr ⟨hW, hH⟩)]
  simp only [drawCallsOf, drawCallsOf_append, drawCallsOf_renderLists, scaleClipRects,
    List.flatMap_map]
  simp [List.map_map, List.length_map, Function.comp_def]

theorem foldl_applyCall_loop (calls : List GPUCall) :
    ∀ s : GPUState, (∀ c ∈ calls, isLoopCall c) →
      (calls.foldl applyCall s).blend = s.blend ∧
      (calls.foldl applyCall s).face_culling = s.face_culling ∧
      (calls.foldl applyCall s).scissor_test = s.scissor_test ∧
      (calls.foldl applyCall s).viewport = s.viewport := by
  induction calls with
  | nil => intro s _; exact ⟨rfl, rfl, rfl, rfl⟩
  | cons c rest ih =>
    intro s hmem
    have hc : isLoopCall c := hmem c (List.mem_cons_self c rest)
    have hrest : ∀ c' ∈ rest, isLoopCall c' := fun c' h => hmem c' (List.mem_cons_of_mem c h)
    cases c <;> simp only [isLoopCall] at hc <;>
      simpa [applyCall] using ih _ hrest

theorem isLoopCall_renderCmds (fbH : Int) (vtx : List Vtx) (idx : List Nat)
    (cmds : List DrawCmd) : ∀ off : Nat, ∀ c ∈ renderCmds fbH vtx idx cmds off, isLoopCall c := by
  induction cmds with
  | nil => intro off c hc; simp [renderCmds] at hc
  | cons cmd rest ih =>
    intro off c hc
    simp only [renderCmds, List.mem_cons] at hc
    rcases hc with h | h | h | h
    · subst h; trivial
    · subst h; trivial
    · subst h; trivial
    · exact ih _ c h

theorem isLoopCall_renderLists (fbH : Int) (cls : List CmdList) :
    ∀ c ∈ renderLists fbH cls, isLoopCall c := by
  induction cls with
  | nil => intro c hc; simp [renderLists] at hc
  | cons cl rest ih =>
    intro c hc
    simp only [renderLists, List.mem_append] at hc
    rcases hc with h | h
    · exact isLoopCall_renderCmds fbH cl.vtx_buffer cl.idx_buffer cl.commands 0 c h
    · exact ih c h

theorem renderFinal_fields (io : IOState) (dd : DrawData) (g : GPUState)
    (hW : pyInt (io.display_size.1 * io.display_fb_scale.1) ≠ 0)
    (hH : pyInt (io.display_size.2 * io.display_fb_scale.2) ≠ 0) :
    (renderFinal io dd g).blend = g.blend ∧
    (renderFinal io dd g).scissor_test = false ∧
    (renderFinal io dd g).face_culling = "NONE" ∧
    (renderFinal io dd g).viewport =
      (0, 0, pyInt (io.display_size.1 * io.display_fb_scale.1),
       pyInt (io.display_size.2 * io.display_fb_scale.2)) := by
  unfold renderFinal
  simp only [render]
  rw [if_neg (not_or.mpr ⟨hW, hH⟩)]
  simp only [List.foldl_cons]
  rw [List.foldl_append]
  obtain ⟨hb, hf, ht, hv⟩ := foldl_applyCall_loop
    (renderLists (pyInt (io.display_size.2 * io.display_fb_scale.2))
      (scaleClipRects io.display_fb_scale.1 io.display_fb_scale.2 dd).commands_lists)
    (applyCall (applyCall (applyCall (applyCall (applyCall (applyCall (applyCall g
      (GPUCall.blendSet "ALPHA")) (GPUCall.faceCullingSet "NONE"))
      (GPUCall.scissorTestSet true))
      (GPUCall.viewportSet 0 0 (pyInt (io.display_size.1 * io.display_fb_scale.1))
        (pyInt (io.display_size.2 * io.display_fb_scale.2))))
      GPUCall.shaderBind)
      (GPUCall.uniformProjMtx (orthoProjection io.display_size.1 io.display_size.2)))
      (GPUCall.uniformTextureInt 0))
    (isLoopCall_renderLists _ _)
  simp only [List.foldl_cons, List.foldl_nil]
  refine ⟨?_, ?_, ?_, ?_⟩
  · simp [applyCall]
  · simp [applyCall]
  · simpa [applyCall] using hf
  · simpa [applyCall] using hv

/-!
## Lemmas about the registry
-/

theorem dictSet_append (m : List (Nat × Nat × Nat)) (k : Nat) (v : Nat × Nat)
    (h : ∀ e ∈ m, e.1 ≠ k) : dictSet m k v = m ++ [(k, v)] := by
  have hc : (m.any fun e => e.1 = k) = false := by
    rw [List.any_eq_false]
    intro e he
    simp [h e he]
  simp [dictSet, hc]

theorem handler_add_ctx (s : RegWorld) (cb sp : Nat) :
    (handler_add s cb sp).1.imgui_ctx = true := by
  cases hctx : s.imgui_ctx <;>
    by_cases hsp : sp ∈ (if s.imgui_ctx then s else init_imgui s).draw_handlers.getD [] <;>
    simp_all [handler_add, init_imgui]

theorem handler_add_handle (s : RegWorld) (cb sp : Nat) :
    (handler_add s cb sp).2 = if s.imgui_ctx then s.next_callback_id.getD 0 else 0 := by
  cases hctx : s.imgui_ctx <;>
    by_cases hsp : sp ∈ (if s.imgui_ctx then s else init_imgui s).draw_handlers.getD [] <;>
    simp_all [handler_add, init_imgui]

theorem handler_add_counter (s : RegWorld) (cb sp : Nat) :
    (handler_add s cb sp).1.next_callback_id = some ((handler_add s cb sp).2 + 1) := by
  cases hctx : s.imgui_ctx <;>
    by_cases hsp : sp ∈ (if s.imgui_ctx then s else init_imgui s).draw_handlers.getD [] <;>
    simp_all [handler_add, init_imgui]

theorem handler_add_draw_handlers (s : RegWorld) (cb sp : Nat) :
    (handler_add s cb sp).1.draw_handlers =
      (if sp ∈ (if s.imgui_ctx then s else init_imgui s).draw_handlers.getD [] then
        (if s.imgui_ctx then s else init_imgui s).draw_handlers
       else some ((if s.imgui_ctx then s else init_imgui s).draw_handlers.getD [] ++ [sp])) := by
  cases hctx : s.imgui_ctx <;>
    by_cases hsp : sp ∈ (if s.imgui_ctx then s else init_imgui s).draw_handlers.getD [] <;>
    simp_all [handler_add, init_imgui]

theorem handler_add_callbacks (s : RegWorld) (cb sp : Nat) (hInv : StateInv s) :
    (handler_add s cb sp).1.callbacks.getD [] =
      s.callbacks.getD [] ++ [((handler_add s cb sp).2, cb, sp)] := by
  obtain ⟨h1, h2, h3, h4⟩ := hInv
  cases hctx : s.imgui_ctx
  · have hempty : s.callbacks.getD [] = [] := by
      by_contra hne
      exact absurd (h1.mpr hne) (by simp [hctx])
    by_cases hsp : sp ∈ (init_imgui s).draw_handlers.getD [] <;>
      simp [handler_add, init_imgui, hctx, hempty, dictSet] at hsp ⊢
  · have hfresh : ∀ e ∈ s.callbacks.getD [], e.1 ≠ s.next_callback_id.getD 0 := by
      intro e he
      exact Nat.ne_of_lt (h2 e he)
    by_cases hsp : sp ∈ s.draw_handlers.getD [] <;>
      simp only [handler_add, init_imgui, hctx, if_true, if_false, Bool.true_eq,
        reduceIte] at hsp ⊢ <;>
      simp [hsp, dictSet_append _ _ _ hfresh, handler_add_handle, hctx]

theorem handler_add_hooks (s : RegWorld) (cb sp : Nat) (hInv : StateInv s) :
    (handler_add s cb sp).1.host_hooks = (handler_add s cb sp).1.draw_handlers.getD [] := by
  obtain ⟨h1, h2, h3, h4⟩ := hInv
  cases hctx : s.imgui_ctx
  · have hhooks : s.host_hooks = [] := h4 hctx
    by_cases hsp : sp ∈ (init_imgui s).draw_handlers.getD [] <;>
      simp [handler_add, init_imgui, hctx, hhooks] at hsp ⊢
  · have hhooks : s.host_hooks = s.draw_handlers.getD [] := h3 hctx
    by_cases hsp : sp ∈ s.draw_handlers.getD [] <;>
      simp only [handler_add, init_imgui, hctx, Bool.true_eq, reduceIte] at hsp ⊢ <;>
      simp [hsp, hhooks]

theorem stateInv_handler_add (s : RegWorld) (cb sp : Nat) (hInv : StateInv s) :
    StateInv (handler_add s cb sp).1 := by
  have hcbs := handler_add_callbacks s cb sp hInv
  have hctx := handler_add_ctx s cb sp
  have hcnt := handler_add_counter s cb sp
  have hhooks := handler_add_hooks s cb sp hInv
  obtain ⟨h1, h2, h3, h4⟩ := hInv
  refine ⟨⟨fun _ => by simp [hcbs], fun _ => hctx⟩, ?_, fun _ => hhooks, ?_⟩
  · intro e he
    rw [hcbs] at he
    rw [hcnt]
    simp only [Option.getD_some]
    rcases List.mem_append.mp he with hm | hm
    · have hlt := h2 e hm
      cases hc : s.imgui_ctx
      · have hempty : s.callbacks.getD [] = [] := by
          by_contra hne
          exact absurd (h1.mpr hne) (by simp [hc])
        rw [hempty] at hm
        exact absurd hm (List.not_mem_nil e)
      · have : (handler_add s cb sp).2 = s.next_callback_id.getD 0 := by
          rw [handler_add_handle, if_pos hc]
        omega
    · simp only [List.mem_singleton] at hm
      subst hm
      omega
  · intro hfalse
    rw [hctx] at hfalse
    exact absurd hfalse (by simp)

theorem handler_remove_cases (s : RegWorld) (h : Nat) :
    handler_remove s h = none ∨
    handler_remove s h = some (s, true) ∨
    (∃ cbs', handler_remove s h = some ({ s with callbacks := some cbs' }, false) ∧
      cbs' ≠ [] ∧ ∃ cbs, s.callbacks = some cbs ∧ cbs' = cbs.filter (fun e => e.1 ≠ h)) ∨
    (∃ s', handler_remove s h = some (s', false) ∧ s'.callbacks = some [] ∧
      s'.imgui_ctx = false ∧ s'.draw_handlers = s.draw_handlers ∧
      s'.next_callback_id = s.next_callback_id ∧
      s'.host_hooks = s.host_hooks.filter (fun t => t ∉ s.draw_handlers.getD []) ∧
      (∃ cbs, s.callbacks = some cbs ∧ cbs.any (fun e => e.1 = h) = true)) := by
  cases hcb : s.callbacks with
  | none => exact Or.inl (by simp [handler_remove, hcb])
  | some cbs =>
    by_cases hany : cbs.any (fun e => e.1 = h) = true
    · by_cases hnil : cbs.filter (fun e => e.1 ≠ h) = []
      all_goals simp only [ne_eq, decide_not] at hnil
      · refine Or.inr (Or.inr (Or.inr
          ⟨shutdown_imgui { s with callbacks := some (cbs.filter (fun e => e.1 ≠ h)) },
           ?_, ?_, ?_, ?_, ?_, ?_, cbs, rfl, hany⟩))
        · simp [handler_remove, hcb, hany, hnil]
        · simp [shutdown_imgui, hnil]
        · simp [shutdown_imgui]
        · simp [shutdown_imgui]
        · simp [shutdown_imgui]
        · simp [shutdown_imgui]
      · refine Or.inr (Or.inr (Or.inl
          ⟨cbs.filter (fun e => e.1 ≠ h), ?_, ?_, cbs, rfl, rfl⟩))
        · simp [handler_remove, hcb, hany, hnil]
        · simpa [ne_eq, decide_not] using hnil
    · exact Or.inr (Or.inl (by simp [handler_remove, hcb, hany]))

theorem stateInv_handler_remove (s : RegWorld) (h : Nat) (s' : RegWorld) (b : Bool)
    (hInv : StateInv s) (hrem : handler_remove s h = some (s', b)) : StateInv s' := by
  obtain ⟨h1, h2, h3, h4⟩ := hInv
  rcases handler_remove_cases s h with hc | hc | ⟨cbs', hc, hne, cbs, hcb, hfil⟩ |
    ⟨s'', hc, he1, he2, he3, he4, he5, cbs, hcb, hany⟩
  · rw [hc] at hrem; exact absurd hrem (by simp)
  · rw [hc] at hrem
    have hs' : s = s' := congrArg Prod.fst (Option.some.inj hrem)
    subst hs'
    exact ⟨h1, h2, h3, h4⟩
  · rw [hc] at hrem
    have hs' : ({ s with callbacks := some cbs' } : RegWorld) = s' :=
      congrArg Prod.fst (Option.some.inj hrem)
    subst hs'
    have hcbne : cbs ≠ [] := by
      intro hnil
      rw [hnil] at hfil
      exact hne (by simp [hfil])
    have hctx : s.imgui_ctx = true := h1.mpr (by simp [hcb, hcbne])
    refine ⟨⟨fun _ => by simp [hne], fun _ => hctx⟩, ?_, fun _ => h3 hctx, ?_⟩
    · intro e he
      simp only [Option.getD_some] at he
      refine h2 e ?_
      rw [hcb]
      simp only [Option.getD_some]
      exact List.mem_of_mem_filter (hfil ▸ he)
    · intro hf
      rw [hctx] at hf
      exact absurd hf (by simp)
  · rw [hc] at hrem
    have hs' : s'' = s' := congrArg Prod.fst (Option.some.inj hrem)
    subst hs'
    have hcbne : cbs ≠ [] := by
      intro hnil
      rw [hnil] at hany
      exact absurd hany (by simp)
    have hctx : s.imgui_ctx = true := h1.mpr (by simp [hcb, hcbne])
    have hhooks : s''.host_hooks = [] := by
      rw [he5, h3 hctx]
      refine List.filter_eq_nil_iff.mpr ?_
      intro t ht
      simp [ht]
    refine ⟨?_, ?_, ?_, fun _ => hhooks⟩
    · rw [he1, he2]
      simp
    · intro e he
      rw [he1] at he
      exact absurd he (by simp)
    · intro hf
      rw [he2] at hf
      exact absurd hf (by simp)

theorem stateInv_initState : StateInv initState := by
  refine ⟨?_, ?_, ?_, ?_⟩ <;> simp [initState, StateInv]

theorem stateInv_runOp (s : RegWorld) (op : RegOp) (hInv : StateInv s) :
    StateInv (runOp s op).1 := by
  match op with
  | .add cb sp => exact stateInv_handler_add s cb sp hInv
  | .remove h =>
    simp only [runOp]
    cases hrem : handler_remove s h with
    | none => exact hInv
    | some r => exact stateInv_handler_remove s h r.1 r.2 hInv (by rw [hrem])

theorem stateInv_runOps_of (ops : List RegOp) : ∀ s : RegWorld, StateInv s →
    StateInv (runOps s ops) := by
  induction ops with
  | nil => intro s hInv; exact hInv
  | cons op rest ih =>
    intro s hInv
    exact ih (runOp s op).1 (stateInv_runOp s op hInv)

theorem stateInv_runOps (ops : List RegOp) : StateInv (runOps initState ops) :=
  stateInv_runOps_of ops initState stateInv_initState

theorem runOps_cons (s : RegWorld) (op : RegOp) (ops : List RegOp) :
    runOps s (op :: ops) = runOps (runOp s op).1 ops := rfl

theorem cons_mem_inits {α : Type} {p l : List α} (a : α) (h : p ∈ l.inits) :
    (a :: p) ∈ (a :: l).inits := by
  rw [List.mem_inits] at h ⊢
  obtain ⟨t, ht⟩ := h
  exact ⟨t, by simp [ht]⟩

theorem runTrace_handles (ops : List RegOp) : ∀ s : RegWorld,
    (∀ p ∈ ops.inits, (runOps s p).callbacks ≠ some []) →
    (runTrace s ops).2 =
      List.range' (if s.imgui_ctx then s.next_callback_id.getD 0 else 0)
        (List.countP RegOp.isAdd ops) := by
  induction ops with
  | nil => intro s _; rfl
  | cons op rest ih =>
    intro s hp
    match op with
    | .add cb sp =>
      have hs' : ∀ p ∈ rest.inits, (runOps (runOp s (.add cb sp)).1 p).callbacks ≠ some [] :=
        fun p hmem => hp (RegOp.add cb sp :: p) (cons_mem_inits _ hmem)
      have hctx := handler_add_ctx s cb sp
      have hcnt := handler_add_counter s cb sp
      have hh := handler_add_handle s cb sp
      have htail := ih (handler_add s cb sp).1 hs'
      rw [hctx, hcnt] at htail
      simp only [runTrace, runOp, Option.toList_some, List.singleton_append, htail]
      simp only [if_pos rfl, Option.getD_some]
      rw [hh]
      have hcount : List.countP RegOp.isAdd (RegOp.add cb sp :: rest) =
          List.countP RegOp.isAdd rest + 1 :=
        List.countP_cons_of_pos _ _ rfl
      rw [hcount, List.range'_succ]
      simp
    | .remove hdl =>
      have hcount : List.countP RegOp.isAdd (RegOp.remove hdl :: rest) =
          List.countP RegOp.isAdd rest :=
        List.countP_cons_of_neg _ _ (by simp [RegOp.isAdd])
      rcases handler_remove_cases s hdl with hc | hc | ⟨cbs', hc, hne, cbs, hcb, hfil⟩ |
        ⟨s', hc, he1, he2, he3, he4, he5, cbs, hcb, hany⟩
      · have hs' : ∀ p ∈ rest.inits, (runOps s p).callbacks ≠ some [] := by
          intro p hmem
          have := hp (RegOp.remove hdl :: p) (cons_mem_inits _ hmem)
          simpa [runOps_cons, runOp, hc] using this
        simp only [runTrace, runOp, hc, Option.toList_none, List.nil_append]
        rw [ih s hs', hcount]
      · have hs' : ∀ p ∈ rest.inits, (runOps s p).callbacks ≠ some [] := by
          intro p hmem
          have := hp (RegOp.remove hdl :: p) (cons_mem_inits _ hmem)
          simpa [runOps_cons, runOp, hc] using this
        simp only [runTrace, runOp, hc, Option.toList_none, List.nil_append]
        rw [ih s hs', hcount]
      · have hs' : ∀ p ∈ rest.inits,
            (runOps ({ s with callbacks := some cbs' } : RegWorld) p).callbacks ≠ some [] := by
          intro p hmem
          have := hp (RegOp.remove hdl :: p) (cons_mem_inits _ hmem)
          simpa [runOps_cons, runOp, hc] using this
        simp only [runTrace, runOp, hc, Option.toList_none, List.nil_append]
        rw [ih _ hs', hcount]
      · exfalso
        have h1 : [RegOp.remove hdl] ∈ (RegOp.remove hdl :: rest).inits :=
          cons_mem_inits _ (by simp)
        have := hp [RegOp.remove hdl] h1
        exact this (by simp [runOps_cons, runOp, hc, runOps, runTrace, he1])

theorem drawInvocations_add (s : RegWorld) (cb T ctx : Nat) (hInv : StateInv s) :
    drawInvocations (handler_add s cb T).1 T ctx = drawInvocations s T ctx ++ [(cb, ctx)] := by
  unfold drawInvocations
  rw [handler_add_callbacks s cb T hInv]
  simp [List.filterMap_append]

theorem drawInvocations_add_ne (s : RegWorld) (cb T T' ctx : Nat) (hInv : StateInv s)
    (hne : T' ≠ T) :
    drawInvocations (handler_add s cb T').1 T ctx = drawInvocations s T ctx := by
  unfold drawInvocations
  rw [handler_add_callbacks s cb T' hInv]
  simp [List.filterMap_append, hne]

/-!
## Evaluation lemmas for integer-valued inputs
-/

theorem pyInt_eq (q : ℚ) (n : Int) (h : q = (n : ℚ)) : pyInt q = n := by
  rw [h, pyInt_intCast]

theorem pyInt_intCast_mul_one (n : Int) : pyInt ((n : ℚ) * 1) = n := by
  rw [mul_one, pyInt_intCast]

theorem srcScissorRect_intCast (fbH x0 y0 x1 y1 : Int) :
    srcScissorRect fbH ⟨(x0 : ℚ), (y0 : ℚ), (x1 : ℚ), (y1 : ℚ)⟩ =
      (x0, fbH - y1, x1 - x0, y1 - y0) := by
  unfold srcScissorRect
  rw [pyInt_intCast,
    pyInt_eq _ (fbH - y1) (by push_cast; ring),
    pyInt_eq _ (x1 - x0) (by push_cast; ring),
    pyInt_eq _ (y1 - y0) (by push_cast; ring)]

theorem specScissorRect_intCast (fbW fbH x0 y0 x1 y1 : Int) :
    specScissorRect fbW fbH ⟨(x0 : ℚ), (y0 : ℚ), (x1 : ℚ), (y1 : ℚ)⟩ =
      (max x0 0, fbH - min y1 fbH, min x1 fbW - max x0 0, min y1 fbH - max y0 0) := by
  unfold specScissorRect
  dsimp only
  rw [pyInt_eq _ (max x0 0) (by push_cast; rfl),
    pyInt_eq _ (fbH - min y1 fbH) (by push_cast; rfl),
    pyInt_eq _ (min x1 fbW - max x0 0) (by push_cast; rfl),
    pyInt_eq _ (min y1 fbH - max y0 0) (by push_cast; rfl)]

/-!
## Claim theorems
-/

/-- Claim C1 as stated is false on the code: handles are reused across a
teardown/reinit cycle.  The call sequence register, unregister 0, register
empties the set (triggering `shutdown_imgui`) and the next `handler_add`
re-runs `init_imgui`, which resets `next_callback_id` to 0, so the handle 0
is returned twice: the returned handle list is `[0, 0]`, which is not
strictly increasing and reuses a removed handle. -/
theorem handle_reused_after_teardown :
    (runTrace initState [RegOp.add 0 0, RegOp.remove 0, RegOp.add 0 0]).2 = [0, 0] ∧
    ¬ List.Pairwise (fun a b => a < b)
        (runTrace initState [RegOp.add 0 0, RegOp.remove 0, RegOp.add 0 0]).2 := by
  decide

/-- Claim C1 amended: within a single initialization epoch — i.e. for every
call sequence during which no unregister call empties the registration set —
the handles returned by the register calls are exactly 0, 1, 2, …: unique,
strictly increasing, starting from 0, never reused.  Across a full teardown
followed by re-initialization the counter is reset to 0 by `init_imgui` and
handle values are reused (see the counterexample). -/
theorem handles_strictly_increasing_without_teardown (ops : List RegOp)
    (h : ∀ p ∈ ops.inits, (runOps initState p).callbacks ≠ some []) :
    (runTrace initState ops).2 = List.range (List.countP RegOp.isAdd ops) := by
  rw [runTrace_handles ops initState h]
  simp [initState, List.range_eq_range']

/-- Witness for the amended C1 at a concrete call sequence. -/
theorem handles_strictly_increasing_without_teardown_witness :
    (∀ p ∈ ([RegOp.add 0 0, RegOp.add 1 0, RegOp.remove 0, RegOp.add 2 0] : List RegOp).inits,
      (runOps initState p).callbacks ≠ some []) ∧
    (runTrace initState [RegOp.add 0 0, RegOp.add 1 0, RegOp.remove 0, RegOp.add 2 0]).2 =
      List.range (List.countP RegOp.isAdd
        [RegOp.add 0 0, RegOp.add 1 0, RegOp.remove 0, RegOp.add 2 0]) :=
  ⟨by decide, handles_strictly_increasing_without_teardown _ (by decide)⟩

/-- Claim C2: after every sequence of register/unregister calls starting from
the fresh singleton state, the GUI context exists (`imgui_ctx` is not `None`)
iff the callback registration map is non-empty. -/
theorem context_iff_callbacks_nonempty (ops : List RegOp) :
    (runOps initState ops).imgui_ctx = true ↔
      (runOps initState ops).callbacks.getD [] ≠ [] :=
  (stateInv_runOps ops).1

/-- Claim C3 as stated is false on the code: `shutdown_imgui` removes the
host draw hooks and destroys the context but does not clear the registry
state.  After register then unregister (which empties the set and tears
down), the draw-handler map still holds the stale space-type key and the
handle counter still holds 1 — neither is cleared nor reset. -/
theorem teardown_keeps_registry_maps :
    (runOps initState [RegOp.add 0 0, RegOp.remove 0]).draw_handlers = some [0] ∧
    (runOps initState [RegOp.add 0 0, RegOp.remove 0]).next_callback_id = some 1 ∧
    (runOps initState [RegOp.add 0 0, RegOp.remove 0]).draw_handlers ≠ some [] ∧
    (runOps initState [RegOp.add 0 0, RegOp.remove 0]).next_callback_id ≠ some 0 := by
  decide

/-- Claim C3 amended: when an unregister call removes the last element of the
registration set of a reachable state, the transition removes every installed
host draw hook, destroys the GUI context, and leaves the callback map empty —
but the draw-handler map and the handle counter are NOT cleared at teardown
(they are only reset lazily by the next `init_imgui`). -/
theorem teardown_effects (ops : List RegOp) (h : Nat)
    (hany : (((runOps initState ops).callbacks.getD []).any (fun e => e.1 = h)) = true)
    (hemp : ((runOps initState ops).callbacks.getD []).filter (fun e => e.1 ≠ h) = []) :
    ∃ s', handler_remove (runOps initState ops) h = some (s', false) ∧
      s'.host_hooks = [] ∧ s'.imgui_ctx = false ∧ s'.callbacks = some [] ∧
      s'.draw_handlers = (runOps initState ops).draw_handlers ∧
      s'.next_callback_id = (runOps initState ops).next_callback_id := by
  obtain ⟨h1, h2, h3, h4⟩ := stateInv_runOps ops
  cases hcb : (runOps initState ops).callbacks with
  | none => rw [hcb] at hany; simp at hany
  | some cbs =>
    rw [hcb] at hany hemp
    simp only [Option.getD_some] at hany hemp
    simp only [ne_eq, decide_not] at hemp
    have hctx : (runOps initState ops).imgui_ctx = true := by
      apply h1.mpr
      rw [hcb]
      simp only [Option.getD_some]
      intro hnil
      rw [hnil] at hany
      simp at hany
    refine ⟨shutdown_imgui
      { runOps initState ops with callbacks := some (cbs.filter (fun e => e.1 ≠ h)) },
      ?_, ?_, ?_, ?_, ?_, ?_⟩
    · simp [handler_remove, hcb, hany, hemp]
    · simp only [shutdown_imgui]
      rw [h3 hctx]
      refine List.filter_eq_nil_iff.mpr ?_
      intro t ht
      simp [ht]
    · simp [shutdown_imgui]
    · simp [shutdown_imgui, hemp]
    · simp [shutdown_imgui]
    · simp [shutdown_imgui]

/-- Witness for the amended C3: registering once and removing that handle. -/
theorem teardown_effects_witness :
    ((((runOps initState [RegOp.add 0 0]).callbacks.getD []).any (fun e => e.1 = 0)) = true ∧
     ((runOps initState [RegOp.add 0 0]).callbacks.getD []).filter (fun e => e.1 ≠ 0) = []) ∧
    (∃ s', handler_remove (runOps initState [RegOp.add 0 0]) 0 = some (s', false) ∧
      s'.host_hooks = [] ∧ s'.imgui_ctx = false ∧ s'.callbacks = some [] ∧
      s'.draw_handlers = (runOps initState [RegOp.add 0 0]).draw_handlers ∧
      s'.next_callback_id = (runOps initState [RegOp.add 0 0]).next_callback_id) :=
  ⟨⟨by decide, by decide⟩, teardown_effects [RegOp.add 0 0] 0 (by decide) (by decide)⟩

/-- Claim C4 as stated is false on the code: it quantifies over every state
of the registry, but on the freshly constructed singleton (where
`__init__` only set `imgui_ctx = None` and the `callbacks` attribute does not
exist) `handler_remove 5` raises `AttributeError` (modelled as `none`)
instead of logging an error and returning. -/
theorem remove_before_init_raises :
    initState.callbacks = none ∧ handler_remove initState 5 = none := by
  decide

/-- Claim C4 amended: on every registry state whose `callbacks` attribute
exists (in particular every state after at least one registration), an
unregister call with a handle not present in the map logs an error and is a
complete no-op: it returns with the state exactly unchanged (registration
set, draw hooks and context all untouched). -/
theorem remove_unknown_handle_noop (s : RegWorld) (cbs : List (Nat × Nat × Nat)) (h : Nat)
    (hattr : s.callbacks = some cbs) (hunk : (cbs.any (fun e => e.1 = h)) = false) :
    handler_remove s h = some (s, true) := by
  simp [handler_remove, hattr, hunk]

/-- Witness for the amended C4 on a state with one registration. -/
theorem remove_unknown_handle_noop_witness :
    ((runOps initState [RegOp.add 0 0]).callbacks = some [(0, 0, 0)] ∧
     (([(0, 0, 0)] : List (Nat × Nat × Nat)).any (fun e => e.1 = 5)) = false) ∧
    handler_remove (runOps initState [RegOp.add 0 0]) 5 =
      some (runOps initState [RegOp.add 0 0], true) :=
  ⟨⟨by decide, by decide⟩,
   remove_unknown_handle_noop (runOps initState [RegOp.add 0 0]) [(0, 0, 0)] 5
     (by decide) (by decide)⟩

/-- Claim C7: dispatching for region type T invokes each callback registered
for T exactly once with the host context: registering `cb1` for T makes the
dispatch invocation list for T grow by exactly the one entry `(cb1, ctx)` at
the end; registering `cb1` then `cb2` for T makes one dispatch invoke both,
in insertion order; registering for a different region type T' adds no
invocation to T dispatches. -/
theorem dispatch_invokes_matching_callbacks (ops : List RegOp) (cb1 cb2 T T' ctx : Nat)
    (hne : T' ≠ T) :
    drawInvocations (handler_add (runOps initState ops) cb1 T).1 T ctx =
      drawInvocations (runOps initState ops) T ctx ++ [(cb1, ctx)] ∧
    drawInvocations (handler_add (handler_add (runOps initState ops) cb1 T).1 cb2 T).1 T ctx =
      drawInvocations (runOps initState ops) T ctx ++ [(cb1, ctx), (cb2, ctx)] ∧
    drawInvocations (handler_add (runOps initState ops) cb1 T').1 T ctx =
      drawInvocations (runOps initState ops) T ctx := by
  have hInv := stateInv_runOps ops
  have hInv2 := stateInv_handler_add _ cb1 T hInv
  refine ⟨drawInvocations_add _ cb1 T ctx hInv, ?_,
    drawInvocations_add_ne _ cb1 T T' ctx hInv hne⟩
  rw [drawInvocations_add _ cb2 T ctx hInv2, drawInvocations_add _ cb1 T ctx hInv]
  simp

/-- Witness for C7 on the fresh state with concrete callbacks and types. -/
theorem dispatch_invokes_matching_callbacks_witness :
    ((1 : Nat) ≠ 0) ∧
    (drawInvocations (handler_add (runOps initState []) 5 0).1 0 7 =
      drawInvocations (runOps initState []) 0 7 ++ [(5, 7)] ∧
     drawInvocations (handler_add (handler_add (runOps initState []) 5 0).1 6 0).1 0 7 =
      drawInvocations (runOps initState []) 0 7 ++ [(5, 7), (6, 7)] ∧
     drawInvocations (handler_add (runOps initState []) 5 1).1 0 7 =
      drawInvocations (runOps initState []) 0 7) :=
  ⟨by decide, dispatch_invokes_matching_callbacks [] 5 6 0 1 7 (by decide)⟩

/-- Claim C5 as stated is false on the code: the scissor rectangle passed to
the host is the converted clip rectangle with NO intersection against the
framebuffer.  With a 100×100 framebuffer (scale 1) and the clip rectangle
(-10, 0, 50, 50), which sticks out to the left, the code sets the scissor
rectangle (-10, 50, 60, 50), while the clip rectangle intersected with the
framebuffer, converted by the same Y-flip, is (0, 50, 50, 50). -/
theorem scissor_not_intersected_with_framebuffer :
    scissorCallsOf (render ⟨(((100 : Int) : ℚ), ((100 : Int) : ℚ)), (1, 1)⟩
        ⟨[⟨[], [0, 1, 2],
           [⟨3, 7, ⟨((-10 : Int) : ℚ), ((0 : Int) : ℚ), ((50 : Int) : ℚ), ((50 : Int) : ℚ)⟩⟩]⟩]⟩
        ⟨"NONE", "BACK", false, (0, 0, 0, 0), (0, 0, 0, 0)⟩) =
      [((-10 : Int), 50, 60, 50)] ∧
    specScissorRect 100 100
        ⟨((-10 : Int) : ℚ), ((0 : Int) : ℚ), ((50 : Int) : ℚ), ((50 : Int) : ℚ)⟩ =
      ((0 : Int), 50, 50, 50) ∧
    (((-10 : Int), (50 : Int), (60 : Int), (50 : Int)) ≠ ((0 : Int), 50, 50, 50)) := by
  have hW : pyInt (((100 : Int) : ℚ) * 1) ≠ 0 := by
    rw [pyInt_intCast_mul_one]; decide
  refine ⟨?_, ?_, by decide⟩
  · rw [scissorCallsOf_render _ _ _ hW hW]
    simp only [scaleClipRects, List.map_cons, List.map_nil, List.flatMap_cons,
      List.flatMap_nil, List.append_nil, mul_one, pyInt_intCast_mul_one,
      srcScissorRect_intCast]
    decide
  · rw [specScissorRect_intCast]
    decide

/-- Claim C5 amended: in `render`, for every command list and every draw
command in order, the scissor rectangle set before the draw call is the
command's (scaled) clip rectangle converted from top-left-origin to
bottom-left-origin pixel coordinates via `scissorY = fbHeight - clipRect.y1`
(`srcScissorRect`), with no intersection against the framebuffer — clamping
is left to the host. -/
theorem scissor_formula_unclamped (io : IOState) (dd : DrawData) (g : GPUState)
    (hW : pyInt (io.display_size.1 * io.display_fb_scale.1) ≠ 0)
    (hH : pyInt (io.display_size.2 * io.display_fb_scale.2) ≠ 0) :
    scissorCallsOf (render io dd g) =
      (scaleClipRects io.display_fb_scale.1 io.display_fb_scale.2 dd).commands_lists.flatMap
        (fun cl => cl.commands.map (fun c =>
          srcScissorRect (pyInt (io.display_size.2 * io.display_fb_scale.2)) c.clip_rect)) :=
  scissorCallsOf_render io dd g hW hH

/-- Witness for the amended C5 on a concrete non-degenerate frame. -/
theorem scissor_formula_unclamped_witness :
    (pyInt ((((100 : Int) : ℚ), ((100 : Int) : ℚ)).1 * ((1 : ℚ), (1 : ℚ)).1) ≠ 0 ∧
     pyInt ((((100 : Int) : ℚ), ((100 : Int) : ℚ)).2 * ((1 : ℚ), (1 : ℚ)).2) ≠ 0) ∧
    scissorCallsOf (render ⟨(((100 : Int) : ℚ), ((100 : Int) : ℚ)), (1, 1)⟩
        ⟨[⟨[], [0, 1, 2],
           [⟨3, 7, ⟨((10 : Int) : ℚ), ((10 : Int) : ℚ), ((20 : Int) : ℚ), ((20 : Int) : ℚ)⟩⟩]⟩]⟩
        ⟨"NONE", "BACK", false, (0, 0, 0, 0), (0, 0, 0, 0)⟩) =
      (scaleClipRects 1 1
        ⟨[⟨[], [0, 1, 2],
           [⟨3, 7, ⟨((10 : Int) : ℚ), ((10 : Int) : ℚ), ((20 : Int) : ℚ), ((20 : Int) : ℚ)⟩⟩]⟩]⟩).commands_lists.flatMap
        (fun cl => cl.commands.map (fun c =>
          srcScissorRect (pyInt (((100 : Int) : ℚ) * 1)) c.clip_rect)) := by
  have hW : pyInt (((100 : Int) : ℚ) * 1) ≠ 0 := by
    rw [pyInt_intCast_mul_one]; decide
  exact ⟨⟨hW, hW⟩, scissor_formula_unclamped _ _ _ hW hW⟩

/-- Claim C6: for a DrawData snapshot with exactly one command list holding
exactly one draw command with `elem_count = 3`, an index buffer of the
matching length and a clip rectangle fully inside the framebuffer
(scale factor 1, so framebuffer = display size), `render` issues exactly one
draw call, that draw call uses exactly 3 indices, and the scissor rectangle
set for it is `(x0, fbHeight - y1, x1 - x0, y1 - y0)`, i.e. satisfies
`scissorY = fbHeight - clipRect.y1`. -/
theorem single_command_single_draw (dw dh x0 y0 x1 y1 : Int) (tex : Nat)
    (vtx : List Vtx) (idx : List Nat) (g : GPUState)
    (hdw : 0 < dw) (hdh : 0 < dh) (hx0 : 0 ≤ x0) (hy0 : 0 ≤ y0)
    (hx01 : x0 ≤ x1) (hy01 : y0 ≤ y1) (hx1 : x1 ≤ dw) (hy1 : y1 ≤ dh)
    (hidx : idx.length = 3) :
    (drawCallsOf (render ⟨((dw : ℚ), (dh : ℚ)), (1, 1)⟩
        ⟨[⟨vtx, idx, [⟨3, tex, ⟨(x0 : ℚ), (y0 : ℚ), (x1 : ℚ), (y1 : ℚ)⟩⟩]⟩]⟩ g)).length = 1 ∧
    (∀ a ∈ drawCallsOf (render ⟨((dw : ℚ), (dh : ℚ)), (1, 1)⟩
        ⟨[⟨vtx, idx, [⟨3, tex, ⟨(x0 : ℚ), (y0 : ℚ), (x1 : ℚ), (y1 : ℚ)⟩⟩]⟩]⟩ g),
      a.indices.length = 3) ∧
    scissorCallsOf (render ⟨((dw : ℚ), (dh : ℚ)), (1, 1)⟩
        ⟨[⟨vtx, idx, [⟨3, tex, ⟨(x0 : ℚ), (y0 : ℚ), (x1 : ℚ), (y1 : ℚ)⟩⟩]⟩]⟩ g) =
      [(x0, dh - y1, x1 - x0, y1 - y0)] := by
  have hW : pyInt ((dw : ℚ) * 1) ≠ 0 := by
    rw [pyInt_intCast_mul_one]; omega
  have hH : pyInt ((dh : ℚ) * 1) ≠ 0 := by
    rw [pyInt_intCast_mul_one]; omega
  refine ⟨?_, ?_, ?_⟩
  · rw [drawCallsOf_render _ _ _ hW hH]
    simp
  · intro a ha
    rw [drawCallsOf_render _ _ _ hW hH] at ha
    simp at ha
    subst ha
    simp [List.length_take, hidx]
  · rw [scissorCallsOf_render _ _ _ hW hH]
    simp only [scaleClipRects, List.map_cons, List.map_nil, List.flatMap_cons,
      List.flatMap_nil, List.append_nil, mul_one, pyInt_intCast_mul_one, pyInt_intCast,
      srcScissorRect_intCast]

/-- Witness for C6 at a 100×100 frame with clip rectangle (10, 10, 20, 20). -/
theorem single_command_single_draw_witness :
    ((0 : Int) < 100 ∧ (0 : Int) < 100 ∧ (0 : Int) ≤ 10 ∧ (0 : Int) ≤ 10 ∧
     (10 : Int) ≤ 20 ∧ (10 : Int) ≤ 20 ∧ (20 : Int) ≤ 100 ∧ (20 : Int) ≤ 100 ∧
     ([0, 1, 2] : List Nat).length = 3) ∧
    ((drawCallsOf (render ⟨(((100 : Int) : ℚ), ((100 : Int) : ℚ)), (1, 1)⟩
        ⟨[⟨[], [0, 1, 2],
           [⟨3, 7, ⟨((10 : Int) : ℚ), ((10 : Int) : ℚ), ((20 : Int) : ℚ), ((20 : Int) : ℚ)⟩⟩]⟩]⟩
        ⟨"NONE", "BACK", false, (0, 0, 0, 0), (0, 0, 0, 0)⟩)).length = 1 ∧
     (∀ a ∈ drawCallsOf (render ⟨(((100 : Int) : ℚ), ((100 : Int) : ℚ)), (1, 1)⟩
        ⟨[⟨[], [0, 1, 2],
           [⟨3, 7, ⟨((10 : Int) : ℚ), ((10 : Int) : ℚ), ((20 : Int) : ℚ), ((20 : Int) : ℚ)⟩⟩]⟩]⟩
        ⟨"NONE", "BACK", false, (0, 0, 0, 0), (0, 0, 0, 0)⟩),
       a.indices.length = 3) ∧
     scissorCallsOf (render ⟨(((100 : Int) : ℚ), ((100 : Int) : ℚ)), (1, 1)⟩
        ⟨[⟨[], [0, 1, 2],
           [⟨3, 7, ⟨((10 : Int) : ℚ), ((10 : Int) : ℚ), ((20 : Int) : ℚ), ((20 : Int) : ℚ)⟩⟩]⟩]⟩
        ⟨"NONE", "BACK", false, (0, 0, 0, 0), (0, 0, 0, 0)⟩) =
       [((10 : Int), 100 - 20, 20 - 10, 20 - 10)]) :=
  ⟨⟨by decide, by decide, by decide, by decide, by decide, by decide, by decide, by decide,
    by decide⟩,
   single_command_single_draw 100 100 10 10 20 20 7 [] [0, 1, 2]
     ⟨"NONE", "BACK", false, (0, 0, 0, 0), (0, 0, 0, 0)⟩
     (by decide) (by decide) (by decide) (by decide) (by decide) (by decide)
     (by decide) (by decide) (by decide)⟩

/-- Claim C8 as stated is false on the code: blend mode is restored and
scissor testing disabled before return, but the face-culling state set to
NONE by `render` (and the viewport) is never restored: calling `render` on a
host state whose face culling is BACK leaves it NONE afterwards. -/
theorem face_culling_not_restored :
    (renderFinal ⟨(((100 : Int) : ℚ), ((100 : Int) : ℚ)), (1, 1)⟩ ⟨[]⟩
        ⟨"ALPHA_PREMULT", "BACK", false, (0, 0, 0, 0), (0, 0, 0, 0)⟩).face_culling = "NONE" ∧
    ("BACK" : String) ≠ "NONE" := by
  have hW : pyInt (((100 : Int) : ℚ) * 1) ≠ 0 := by
    rw [pyInt_intCast_mul_one]; decide
  exact ⟨(renderFinal_fields _ _ _ hW hW).2.2.1, by decide⟩

/-- Claim C8 amended: for every `render` call on a non-degenerate
framebuffer, the blend mode saved at entry is restored (blend after = blend
before) and scissor testing is disabled at exit; but the face-culling mode
(left at NONE) and the viewport (left at `(0, 0, fbWidth, fbHeight)`) are
modified without being restored and survive the call. -/
theorem render_restores_blend_disables_scissor (io : IOState) (dd : DrawData) (g : GPUState)
    (hW : pyInt (io.display_size.1 * io.display_fb_scale.1) ≠ 0)
    (hH : pyInt (io.display_size.2 * io.display_fb_scale.2) ≠ 0) :
    (renderFinal io dd g).blend = g.blend ∧
    (renderFinal io dd g).scissor_test = false ∧
    (renderFinal io dd g).face_culling = "NONE" ∧
    (renderFinal io dd g).viewport =
      (0, 0, pyInt (io.display_size.1 * io.display_fb_scale.1),
       pyInt (io.display_size.2 * io.display_fb_scale.2)) :=
  renderFinal_fields io dd g hW hH

/-- Witness for the amended C8 on a concrete frame. -/
theorem render_restores_blend_disables_scissor_witness :
    (pyInt ((((100 : Int) : ℚ), ((100 : Int) : ℚ)).1 * ((1 : ℚ), (1 : ℚ)).1) ≠ 0 ∧
     pyInt ((((100 : Int) : ℚ), ((100 : Int) : ℚ)).2 * ((1 : ℚ), (1 : ℚ)).2) ≠ 0) ∧
    ((renderFinal ⟨(((100 : Int) : ℚ), ((100 : Int) : ℚ)), (1, 1)⟩ ⟨[]⟩
        ⟨"ALPHA_PREMULT", "BACK", false, (0, 0, 0, 0), (0, 0, 0, 0)⟩).blend = "ALPHA_PREMULT" ∧
     (renderFinal ⟨(((100 : Int) : ℚ), ((100 : Int) : ℚ)), (1, 1)⟩ ⟨[]⟩
        ⟨"ALPHA_PREMULT", "BACK", false, (0, 0, 0, 0), (0, 0, 0, 0)⟩).scissor_test = false ∧
     (renderFinal ⟨(((100 : Int) : ℚ), ((100 : Int) : ℚ)), (1, 1)⟩ ⟨[]⟩
        ⟨"ALPHA_PREMULT", "BACK", false, (0, 0, 0, 0), (0, 0, 0, 0)⟩).face_culling = "NONE" ∧
     (renderFinal ⟨(((100 : Int) : ℚ), ((100 : Int) : ℚ)), (1, 1)⟩ ⟨[]⟩
        ⟨"ALPHA_PREMULT", "BACK", false, (0, 0, 0, 0), (0, 0, 0, 0)⟩).viewport =
       (0, 0, pyInt ((((100 : Int) : ℚ), ((100 : Int) : ℚ)).1 * ((1 : ℚ), (1 : ℚ)).1),
        pyInt ((((100 : Int) : ℚ), ((100 : Int) : ℚ)).2 * ((1 : ℚ), (1 : ℚ)).2))) := by
  have hW : pyInt (((100 : Int) : ℚ) * 1) ≠ 0 := by
    rw [pyInt_intCast_mul_one]; decide
  exact ⟨⟨hW, hW⟩, render_restores_blend_disables_scissor _ _ _ hW hW⟩

/-- Claim C10: in `render`, every issued draw call passes the command list's
ENTIRE vertex buffer as the Position/UV/Color attribute arrays, and the k-th
draw command of a list draws exactly the index slice starting at the sum of
the `elem_count` values of the preceding commands of that list, of length the
command's own `elem_count` — so consecutive commands consume contiguous,
non-overlapping index ranges in document order. -/
theorem draw_whole_buffer_contiguous_slices (io : IOState) (dd : DrawData) (g : GPUState)
    (hW : pyInt (io.display_size.1 * io.display_fb_scale.1) ≠ 0)
    (hH : pyInt (io.display_size.2 * io.display_fb_scale.2) ≠ 0) :
    drawCallsOf (render io dd g) =
      dd.commands_lists.flatMap (fun cl =>
        (List.range cl.commands.length).map (fun k =>
          ⟨verticesOf cl.vtx_buffer, uvsOf cl.vtx_buffer, colorsOf cl.vtx_buffer,
           (cl.idx_buffer.drop (((cl.commands.take k).map DrawCmd.elem_count).sum)).take
             ((cl.commands.map DrawCmd.elem_count).getD k 0)⟩)) := by
  rw [drawCallsOf_render io dd g hW hH]
  simp [List.map_take]

/-- Witness for C10 on a concrete two-command list. -/
theorem draw_whole_buffer_contiguous_slices_witness :
    (pyInt ((((100 : Int) : ℚ), ((100 : Int) : ℚ)).1 * ((1 : ℚ), (1 : ℚ)).1) ≠ 0 ∧
     pyInt ((((100 : Int) : ℚ), ((100 : Int) : ℚ)).2 * ((1 : ℚ), (1 : ℚ)).2) ≠ 0) ∧
    drawCallsOf (render ⟨(((100 : Int) : ℚ), ((100 : Int) : ℚ)), (1, 1)⟩
        ⟨[⟨[], [0, 1, 2, 0, 2, 3],
           [⟨3, 7, ⟨((0 : Int) : ℚ), ((0 : Int) : ℚ), ((9 : Int) : ℚ), ((9 : Int) : ℚ)⟩⟩,
            ⟨3, 8, ⟨((0 : Int) : ℚ), ((0 : Int) : ℚ), ((9 : Int) : ℚ), ((9 : Int) : ℚ)⟩⟩]⟩]⟩
        ⟨"NONE", "BACK", false, (0, 0, 0, 0), (0, 0, 0, 0)⟩) =
      ([⟨[], [0, 1, 2, 0, 2, 3],
          [⟨3, 7, ⟨((0 : Int) : ℚ), ((0 : Int) : ℚ), ((9 : Int) : ℚ), ((9 : Int) : ℚ)⟩⟩,
           ⟨3, 8, ⟨((0 : Int) : ℚ), ((0 : Int) : ℚ), ((9 : Int) : ℚ), ((9 : Int) : ℚ)⟩⟩]⟩] :
        List CmdList).flatMap (fun cl =>
        (List.range cl.commands.length).map (fun k =>
          ⟨verticesOf cl.vtx_buffer, uvsOf cl.vtx_buffer, colorsOf cl.vtx_buffer,
           (cl.idx_buffer.drop (((cl.commands.take k).map DrawCmd.elem_count).sum)).take
             ((cl.commands.map DrawCmd.elem_count).getD k 0)⟩)) := by
  have hW : pyInt (((100 : Int) : ℚ) * 1) ≠ 0 := by
    rw [pyInt_intCast_mul_one]; decide
  exact ⟨⟨hW, hW⟩, draw_whole_buffer_contiguous_slices _ _ _ hW hW⟩

/-- Claim C9: after every input event processed by `modal_imgui`, each
modifier flag equals the OR of the current pressed-state of its left/right
variant key slots (slots `128+1 … 128+7` of the source's key map); Blender
reports both OS keys as the single event type OSKEY, which shares the one
slot `128+7`, so the super flag equals that shared slot's state.  This holds
for every prior input state, hence for all interleavings of left/right
press-release sequences. -/
theorem modifier_flags_or_of_variants (rh : Int) (io : ImguiIO) (ev : BEvent) :
    (modal_imgui rh io ev).key_ctrl =
      ((modal_imgui rh io ev).keys_down (128 + 1) ||
       (modal_imgui rh io ev).keys_down (128 + 2)) ∧
    (modal_imgui rh io ev).key_alt =
      ((modal_imgui rh io ev).keys_down (128 + 3) ||
       (modal_imgui rh io ev).keys_down (128 + 4)) ∧
    (modal_imgui rh io ev).key_shift =
      ((modal_imgui rh io ev).keys_down (128 + 5) ||
       (modal_imgui rh io ev).keys_down (128 + 6)) ∧
    (modal_imgui rh io ev).key_super = (modal_imgui rh io ev).keys_down (128 + 7) := by
  rcases ev with ⟨t, v, mx, my, u⟩
  cases u with
  | none => simp [modal_imgui]
  | some c =>
    by_cases hc : 0 < c ∧ c < 0x10000 <;> simp [modal_imgui, hc]

end BlenderImgui
